import Mathlib

/-!
Verification development for the markio conversion-orchestration layer.

Shallow embedding of the Python source files
  src/markio/utils/file_utils.py
  src/markio/utils/model_manager.py
  src/markio/utils/libreoffice_converter.py
  src/scripts/run_local.py
into Lean definitions, together with theorems settling the specified
properties of this layer.  External collaborators (the HTTP client, the
heavyweight model loaders, the converter subprocess, the filesystem) are
modelled as explicit oracle parameters; everything else is translated
directly from the source.
-/

namespace Markio

/-! ## Python string and path helpers (posixpath / urllib.parse subset) -/

/-- Characters allowed after the first character of a URL scheme in CPython
`urllib.parse` (`scheme_chars`): letters, digits, `+`, `-`, `.`. -/
def pySchemeChar (c : Char) : Bool :=
  c.isAlpha || c.isDigit || c = '+' || c = '-' || c = '.'

/-- Lowercase an ASCII string, as Python `str.lower` does on ASCII input. -/
def pyLower (s : String) : String :=
  ⟨s.data.map Char.toLower⟩

/-- `str.startswith`, by structural recursion over the character lists. -/
def strStartsWith (s p : String) : Bool :=
  p.data.isPrefixOf s.data

/-- `str.endswith`, by structural recursion over the character lists. -/
def strEndsWith (s p : String) : Bool :=
  p.data.reverse.isPrefixOf s.data.reverse

/-- `os.path.basename` for POSIX paths: the part after the last `/`. -/
def pyBasename (p : String) : String :=
  ⟨(p.data.reverse.takeWhile (fun c => c != '/')).reverse⟩

/-- `os.path.dirname` for POSIX paths: the part before the last `/`
(with trailing slashes of the head stripped unless the head is all slashes). -/
def pyDirname (p : String) : String :=
  let rev := p.data.reverse
  match rev.findIdx? (fun c => c = '/') with
  | none => ""
  | some i =>
      let head := (rev.drop (i + 1)).reverse ++ ['/']
      if head.all (fun c => c = '/') then ⟨head⟩
      else ⟨head.reverse.dropWhile (fun c => c = '/') |>.reverse⟩

/-- `os.path.join` for POSIX paths, two arguments. -/
def pyPathJoin (a b : String) : String :=
  if strStartsWith b "/" then b
  else if a.isEmpty || strEndsWith a "/" then a ++ b
  else a ++ "/" ++ b

/-- `os.path.isabs` for POSIX paths. -/
def pyIsAbs (p : String) : Bool :=
  strStartsWith p "/"

/-- The extension (with its dot) of the final path component, as computed by
`posixpath.splitext` and `pathlib.PurePath.suffix`: the part of the basename
from its last dot on, provided some earlier character of the basename is not a
dot (so dotfiles such as `.bashrc` have no extension). -/
def pySuffix (p : String) : String :=
  let base := (pyBasename p).data
  match base.reverse.findIdx? (fun c => c = '.') with
  | none => ""
  | some i =>
      let d := base.length - 1 - i
      if (base.take d).any (fun c => c != '.') then ⟨base.drop d⟩ else ""

/-- `pathlib.PurePath.stem`: the basename with `pySuffix` removed. -/
def pyStem (p : String) : String :=
  let base := (pyBasename p).data
  ⟨base.take (base.length - (pySuffix p).length)⟩

/-- `os.path.splitext(p)[-1][1:]`: the extension without its dot. -/
def pyExtNoDot (p : String) : String :=
  ⟨(pySuffix p).data.drop 1⟩

/-- `os.path.basename(p).split(".")[0]`: the basename up to its first dot. -/
def pyNameStem (p : String) : String :=
  ⟨(pyBasename p).data.takeWhile (fun c => c != '.')⟩

/-! ## urllib.parse.urlparse (the fields this code reads) -/

/-- The `scheme`/`netloc`/`path` fields of a CPython `urlsplit` result. -/
structure UrlParts where
  scheme : String
  netloc : String
  path : String
deriving DecidableEq, Repr

/-- Model of CPython `urllib.parse.urlparse`, restricted to the fields the
source reads (`scheme`, `netloc`, `path`).  A scheme is split off when the
text before the first `:` starts with a letter and consists of scheme
characters; a netloc follows `//` up to the next `/`, `?` or `#`; a netloc
with unbalanced square brackets raises `ValueError` (modelled as `.error`);
query and fragment are split off the tail before the path is returned. -/
def pyUrlparse (url : String) : Except String UrlParts :=
  let cs := url.data
  let schemeRest : List Char × List Char :=
    match cs.findIdx? (fun c => c = ':') with
    | some i =>
        if decide (0 < i) &&
            (match cs.head? with | some c => c.isAlpha | none => false) &&
            (cs.take i).all pySchemeChar then
          ((cs.take i).map Char.toLower, cs.drop (i + 1))
        else ([], cs)
    | none => ([], cs)
  let scheme := schemeRest.1
  let rest := schemeRest.2
  let netlocRest : Except String (List Char × List Char) :=
    match rest with
    | '/' :: '/' :: tail =>
        let d := (tail.findIdx? (fun c => c = '/' || c = '?' || c = '#')).getD tail.length
        let netloc := tail.take d
        if (netloc.contains '[' && !netloc.contains ']') ||
            (netloc.contains ']' && !netloc.contains '[') then
          .error "Invalid IPv6 URL"
        else .ok (netloc, tail.drop d)
    | _ => .ok ([], rest)
  match netlocRest with
  | .error e => .error e
  | .ok (netloc, rest2) =>
      let noFrag := rest2.takeWhile (fun c => c != '#')
      let path := noFrag.takeWhile (fun c => c != '?')
      .ok ⟨⟨scheme⟩, ⟨netloc⟩, ⟨path⟩⟩

/-! ## file_utils.py -/

/-- `file_utils.is_valid_url`: a string is a valid URL when it parses and both
`scheme` and `netloc` are non-empty (`all([result.scheme, result.netloc])`);
a parse exception yields `False`. -/
def is_valid_url (url_string : String) : Bool :=
  match pyUrlparse url_string with
  | .ok r => !r.scheme.isEmpty && !r.netloc.isEmpty
  | .error _ => false

/-- `file_utils.extract_filename_from_url`: the basename of the URL's path
when it is non-empty, differs from `/`, and contains a dot; otherwise the
empty string (also on a parse exception). -/
def extract_filename_from_url (url : String) : String :=
  match pyUrlparse url with
  | .error _ => ""
  | .ok r =>
      let path := r.path
      if !path.isEmpty && path != "/" then
        let filename := pyBasename path
        if !filename.isEmpty && filename.data.contains '.' then filename else ""
      else ""

/-- `file_utils.download_file_from_url`.  The HTTP transfer is the oracle
`fetch` (`.ok ()` when the GET and the streaming write succeed, `.error e`
when they raise); `temp_dir` stands for the directory of
`NamedTemporaryFile().name`.  Returns the local path the file was written to,
re-raising any transfer error.  A `none`/empty `filename` is derived from the
URL via `extract_filename_from_url`, falling back to `"downloaded_file"`;
a `none`/empty `output_path` selects the temp directory. -/
def download_file_from_url (fetch : String → Except String Unit) (temp_dir : String)
    (url : String) (output_path : Option String) (filename : Option String) :
    Except String String :=
  if !is_valid_url url then .error ("Invalid URL format: " ++ url)
  else
    let fn :=
      match filename with
      | some f =>
          if f.isEmpty then
            let e := extract_filename_from_url url
            if e.isEmpty then "downloaded_file" else e
          else f
      | none =>
          let e := extract_filename_from_url url
          if e.isEmpty then "downloaded_file" else e
    let target :=
      match output_path with
      | some d => if d.isEmpty then pyPathJoin temp_dir fn else pyPathJoin d fn
      | none => pyPathJoin temp_dir fn
    match fetch url with
    | .ok _ => .ok target
    | .error e => .error e

/-- `file_utils.is_url_or_file_path`.  `path_exists` is the
`os.path.exists` oracle.  Empty input is `"local"`; a parsed scheme of
`http`/`https` is `"url"`, `file` is `"local"`, any other non-empty scheme is
`"url"`; otherwise (no scheme, or a parse exception) the absolute/exists
checks run, every branch of which returns `"local"`. -/
def is_url_or_file_path (path_exists : String → Bool) (resource_path : String) :
    String :=
  if resource_path.isEmpty then "local"
  else
    let viaParse : Option String :=
      match pyUrlparse resource_path with
      | .ok parsed =>
          if parsed.scheme = "http" || parsed.scheme = "https" then some "url"
          else if parsed.scheme = "file" then some "local"
          else if !parsed.scheme.isEmpty then some "url"
          else none
      | .error _ => none
    match viaParse with
    | some r => r
    | none =>
        if pyIsAbs resource_path then "local"
        else if path_exists resource_path then "local"
        else "local"

/-- `file_utils.process_resource_path`.  Returns the resolved local path (or
the re-raised download error) together with the number of download attempts
made (0 or 1), so that "performs no network access" is observable. -/
def process_resource_path (path_exists : String → Bool)
    (fetch : String → Except String Unit) (temp_dir : String)
    (resource_path : String) (output_dir : Option String) :
    Except String String × Nat :=
  let input_type := is_url_or_file_path path_exists resource_path
  if input_type = "url" then
    (download_file_from_url fetch temp_dir resource_path output_dir none, 1)
  else
    (.ok resource_path, 0)

/-! ## scripts/run_local.py: engine selection, task processing, batching -/

/-- The keys of `run_local.FUNCTION_MAP`. -/
def FUNCTION_MAP_keys : List String :=
  ["pdf", "img", "doc", "ppt", "pptx", "html", "docx", "url", "xlsx", "epub"]

/-- The keys of the `file_params` table inside `run_local.parameter_adapter`. -/
def file_params_keys : List String :=
  ["pdf", "img", "docx", "doc", "ppt", "pptx", "html", "htm", "xlsx", "epub", "url"]

/-- The module-level PDF-engine selection of `run_local` (lines 26-38): the
chosen routine (by name) and the warning log emitted.  `"pipeline"` and
`"vlm-sglang-engine"` are recognized; anything else logs a warning and
defaults to the pipeline routine. -/
def pdf_engine_selection (pdf_parse_engine : String) : String × List String :=
  if pdf_parse_engine = "pipeline" then ("pdf_parse_main", [])
  else if pdf_parse_engine = "vlm-sglang-engine" then ("pdf_parse_vlm_main", [])
  else
    ("pdf_parse_main",
      ["Invalid PDF_PARSE_ENGINE: " ++ pdf_parse_engine ++ ", using pipeline as default"])

/-- The keyword arguments a task carries through `run_local`, plus the oracle
outcome of awaiting its parser routine (`.ok md` for a returned string,
`.error e` when the routine raises). -/
structure Kwargs where
  file_path : String := ""
  file_name : String := ""
  url : String := ""
  save_parsed_content : Bool := false
  output_dir : String := ""
  parseResult : Except String String := .ok ""
deriving Repr

/-- The validation performed by `run_local.parameter_adapter` (the only part
of it that can raise): unknown file type, missing `url` for the URL route,
missing `file_path` for every other route, and a missing `output_dir` when
`save_parsed_content` is set, each a `ValueError` with the source's message. -/
def parameter_adapter_check (file_ext : String) (kw : Kwargs) : Except String Unit :=
  if file_ext ∉ file_params_keys then
    .error ("Unsupported file type: " ++ file_ext)
  else if file_ext = "url" && kw.url.isEmpty then
    .error "URL is required for URL parser"
  else if file_ext != "url" && kw.file_path.isEmpty then
    .error ("File path is required for " ++ file_ext ++ " parser")
  else if kw.save_parsed_content && kw.output_dir.isEmpty then
    .error "Output directory is required when save_parsed_content is True"
  else .ok ()

/-- The per-task outcome observable at the boundary of
`run_local.process_file_with_adapter`: skipped (unsupported type, warning
only), success, a caught `ValueError` from parameter adaptation, or a caught
exception from the parser routine. -/
inductive Outcome
  | skippedUnsupported
  | ok
  | paramError (msg : String)
  | parseError (msg : String)
deriving DecidableEq, Repr

/-- Whether an outcome is a per-task failure (a caught exception). -/
def Outcome.isFailure : Outcome → Bool
  | .paramError _ => true
  | .parseError _ => true
  | _ => false

/-- `run_local.process_file_with_adapter`: returns the task's outcome and the
log lines it emits.  Every exception raised during parameter adaptation or
parsing is caught here and logged with the task's `file_name`; the coroutine
itself always returns normally. -/
def process_file_with_adapter (file_ext : String) (kw : Kwargs) :
    Outcome × List String :=
  if file_ext ∉ FUNCTION_MAP_keys then
    (.skippedUnsupported, ["Unsupported file type: " ++ file_ext])
  else
    match parameter_adapter_check file_ext kw with
    | .error e =>
        (.paramError e,
          ["Parameter error for " ++ kw.file_name ++ "." ++ file_ext ++ ": " ++ e])
    | .ok _ =>
        match kw.parseResult with
        | .ok _ =>
            (.ok, ["Successfully processed " ++ kw.file_name ++ "." ++ file_ext])
        | .error e =>
            (.parseError e,
              ["Error processing " ++ kw.file_name ++ "." ++ file_ext ++ ": " ++ e])

/-- `run_local.process_file`: derives the extension and name from the path,
dispatches to `process_file_with_adapter` when the extension is supported,
and logs a warning otherwise.  `parseOf` is the oracle giving each file
path its parser-routine outcome. -/
def process_file (parseOf : String → Except String String) (kw : Kwargs)
    (file_path : String) : Outcome × List String :=
  let file_ext := pyLower (pyExtNoDot file_path)
  let file_name := pyNameStem file_path
  if file_ext ∈ FUNCTION_MAP_keys then
    process_file_with_adapter file_ext
      { kw with file_path := file_path, file_name := file_name,
                parseResult := parseOf file_path }
  else
    (.skippedUnsupported, ["Unsupported file type: " ++ file_name ++ "." ++ file_ext])

/-- `ConcurrentProcessor.process_files_concurrent`: every file becomes a
semaphore-wrapped `process_file` task and the tasks are gathered with
`return_exceptions=True`; since each task catches its own exceptions, the
gather yields one normal completion per input file.  Denotationally the
result is one `(outcome, logs)` pair per file. -/
def process_files_concurrent (parseOf : String → Except String String)
    (kw : Kwargs) (files : List String) : List (Outcome × List String) :=
  files.map (process_file parseOf kw)

/-- CPython `range(0, n, step)` (the shape used by
`ConcurrentProcessor.process_files_batched`): `step = 0` raises `ValueError`;
a positive step yields `0, step, 2*step, … < n`; a negative step yields no
indices since the start is 0 and `n ≥ 0`. -/
def pyRangeFromZero (n : Nat) (step : Int) : Except String (List Nat) :=
  if step = 0 then .error "range() arg 3 must not be zero"
  else
    match step with
    | .ofNat b => .ok ((List.range ((n + b - 1) / b)).map (· * b))
    | .negSucc _ => .ok []

/-- `ConcurrentProcessor.process_files_batched`: slices the file list into
chunks of `batch_size` via `range(0, len(files), batch_size)` and Python list
slicing, and runs `process_files_concurrent` on each chunk in order.  The
result is the concatenated per-task outcome list, or the uncaught exception
from `range`. -/
def process_files_batched (parseOf : String → Except String String)
    (kw : Kwargs) (files : List String) (batch_size : Int) :
    Except String (List (Outcome × List String)) :=
  match pyRangeFromZero files.length batch_size with
  | .error e => .error e
  | .ok idxs =>
      .ok ((idxs.map fun i =>
        process_files_concurrent parseOf kw
          ((files.drop i).take batch_size.toNat)).flatten)

/-- `run_local.chunked_iterable`: `islice`-based chunking.  `islice` with a
negative size raises `ValueError` on first use; size 0 produces an empty
first chunk, ending the `while chunk :=` loop with no chunks; a positive
size yields consecutive chunks, the last possibly smaller. -/
def chunked_iterable (l : List String) (size : Int) :
    Except String (List (List String)) :=
  match size with
  | .negSucc _ =>
      .error "Stop argument for islice() must be None or an integer: 0 <= x <= sys.maxsize."
  | .ofNat 0 => .ok []
  | .ofNat (b + 1) => .ok (l.toChunks (b + 1))

/-! ## run_local.merge_json_files (the result aggregator) -/

/-- One file met during the `os.walk` of `merge_json_files`, with the oracle
outcomes of `json.load` on its whole content and of `json.loads` on each of
its lines.  `J` is the type of parsed JSON values (opaque here). -/
structure MergeFile (J : Type) where
  dirpath : String
  filename : String
  jsonValue : Except String J := .error "empty"
  jsonlLines : List (Except String J) := []

/-- `os.path.join(dirpath, filename)` for a walked file. -/
def MergeFile.path {J : Type} (f : MergeFile J) : String :=
  pyPathJoin f.dirpath f.filename

/-- `list.extend` over a generator of `json.loads(line)` calls: elements are
appended one by one until the first line that raises, whose error aborts the
extension (already-appended values remain). -/
def extendJsonl {J : Type} : List (Except String J) → List J × Option String
  | [] => ([], none)
  | .ok v :: rest =>
      let r := extendJsonl rest
      (v :: r.1, r.2)
  | .error e :: _ => ([], some e)

/-- The observables of one `merge_json_files` call: the accumulated records,
the parse-error log lines, the content written to the output file (`none`
when the final write raised `IOError`), the info log, and the Python return
value — which is `None`, modelled as `Option Nat := none`. -/
structure MergeResult (J : Type) where
  merged : List J
  errorLogs : List String
  written : Option (List J)
  infoLogs : List String
  retVal : Option Nat

/-- The walk/accumulate loop of `merge_json_files` over one file. -/
def mergeStep {J : Type} (output_file : String) (file_type : String)
    (acc : List J × List String) (f : MergeFile J) : List J × List String :=
  if f.path = output_file then acc
  else if file_type = "json" && strEndsWith f.filename ".json" then
    match f.jsonValue with
    | .ok v => (acc.1 ++ [v], acc.2)
    | .error e => (acc.1, acc.2 ++ ["Error parsing " ++ f.path ++ ": " ++ e])
  else if file_type = "jsonl" && strEndsWith f.filename ".jsonl" then
    let r := extendJsonl f.jsonlLines
    match r.2 with
    | none => (acc.1 ++ r.1, acc.2)
    | some e => (acc.1 ++ r.1, acc.2 ++ ["Error parsing " ++ f.path ++ ": " ++ e])
  else acc

/-- `run_local.merge_json_files`.  `files` lists the walked files in `os.walk`
order; `writeOk` is the oracle for whether the final `open(output_file, "w")`
write succeeds.  A file that fails to parse is logged and skipped; the
accumulated list is written once at the end; the function returns `None`. -/
def merge_json_files {J : Type} (files : List (MergeFile J))
    (output_file : String) (file_type : String) (writeOk : Bool) :
    MergeResult J :=
  let acc := files.foldl (mergeStep output_file file_type) ([], [])
  if writeOk then
    { merged := acc.1, errorLogs := acc.2, written := some acc.1,
      infoLogs := ["Merged " ++ toString acc.1.length ++ " items into " ++ output_file],
      retVal := none }
  else
    { merged := acc.1, errorLogs := acc.2, written := none,
      infoLogs := [], retVal := none }

/-! ## markio/utils/model_manager.py -/

/-- The settings fields `ModelManager` reads: the configured PDF engine and
the optional VLM server URL (`none` for unset, and the empty string is falsy
in the `not settings.vlm_server_url` check). -/
structure MMSettings where
  pdf_parse_engine : String
  vlm_server_url : Option String := none

/-- Oracle outcomes of the two heavyweight external loaders:
`custom_model_init()` for the pipeline engine and
`ModelSingleton().get_model(...)` for the VLM engines (`true` = returns
normally, `false` = raises). -/
structure MMExternal where
  pipelineLoadOk : Bool
  vlmLoadOk : Bool

/-- The mutable state of a `ModelManager` instance, instrumented with
counters of how many times each heavyweight loader has been invoked (to make
"heavy initialization runs exactly once" observable). -/
structure MMState where
  pipeline_initialized : Bool
  vlm_initialized : Bool
  current_engine : Option String
  initialization_error : Option String
  models : List String
  pipelineHeavyCalls : Nat
  vlmHeavyCalls : Nat
deriving DecidableEq, Repr

/-- `ModelManager.__init__`: the fresh state. -/
def MMState.fresh : MMState :=
  { pipeline_initialized := false, vlm_initialized := false,
    current_engine := none, initialization_error := none, models := [],
    pipelineHeavyCalls := 0, vlmHeavyCalls := 0 }

/-- `ModelManager.reset`: clears all managed state (the instrumentation
counters are not part of the manager and persist). -/
def MMState.reset (st : MMState) : MMState :=
  { st with pipeline_initialized := false, vlm_initialized := false,
            current_engine := none, initialization_error := none, models := [] }

/-- `ModelManager._validate_vlm_config`: the `vlm-sglang-client` engine
requires a non-empty `vlm_server_url`. -/
def validate_vlm_config (settings : MMSettings) (engine : String) : Bool :=
  if engine = "vlm-sglang-client" then
    match settings.vlm_server_url with
    | none => false
    | some u => !u.isEmpty
  else true

/-- `ModelManager._initialize_pipeline_model`: a no-op when already
initialized, otherwise one `custom_model_init()` call; on success the
pipeline becomes the current engine, on a raised exception the method
returns `False`. -/
def initialize_pipeline_model (ext : MMExternal) (st : MMState) :
    Bool × MMState :=
  if st.pipeline_initialized then (true, st)
  else
    let st := { st with pipelineHeavyCalls := st.pipelineHeavyCalls + 1 }
    if ext.pipelineLoadOk then
      (true, { st with pipeline_initialized := true,
                       current_engine := some "pipeline" })
    else (false, st)

/-- `ModelManager._initialize_vlm_model`: a no-op when already initialized;
fails (without any heavy call) when the VLM configuration is invalid;
otherwise one `get_model` call, falling back to the pipeline model when that
call raises. -/
def initialize_vlm_model (settings : MMSettings) (ext : MMExternal)
    (engine : String) (st : MMState) : Bool × MMState :=
  if st.vlm_initialized then (true, st)
  else if !validate_vlm_config settings engine then (false, st)
  else
    let st := { st with vlmHeavyCalls := st.vlmHeavyCalls + 1 }
    if ext.vlmLoadOk then
      (true, { st with vlm_initialized := true,
                       current_engine := some engine,
                       models := st.models ++ [engine] })
    else
      initialize_pipeline_model ext st

/-- The observables of one `ModelManager.initialize_models` call. -/
structure MMResult where
  ok : Bool
  st : MMState
  warnLogs : List String
  errLogs : List String
deriving Repr

/-- `ModelManager.initialize_models`: under the lock, a previously recorded
failure returns `False` immediately; an already-set current engine returns
`True` immediately; otherwise the engine name from settings is lowercased
and dispatched — recognized pipeline names to the pipeline loader,
recognized VLM names to the VLM loader, and an unknown name to the pipeline
loader with a warning.  A `False` result from the loader records the
initialization error. -/
def initialize_models (settings : MMSettings) (ext : MMExternal)
    (st : MMState) : MMResult :=
  if st.initialization_error.isSome then
    { ok := false, st := st, warnLogs := [],
      errLogs := ["Previous initialization failed: " ++
        st.initialization_error.getD ""] }
  else if st.current_engine.isSome then
    { ok := true, st := st, warnLogs := [],
      errLogs := [] }
  else
    let engine := pyLower settings.pdf_parse_engine
    let succStWarns : Bool × MMState × List String :=
      if engine = "pipeline" || engine = "pipeline-engine" then
        let r := initialize_pipeline_model ext st
        (r.1, r.2, [])
      else if engine = "vlm" || engine = "vlm-sglang-engine" ||
          engine = "vlm-sglang-client" then
        let r := initialize_vlm_model settings ext engine st
        (r.1, r.2, [])
      else
        let r := initialize_pipeline_model ext st
        (r.1, r.2, ["Unknown engine: " ++ engine ++ ", falling back to pipeline"])
    match succStWarns with
    | (success, st', warns) =>
        if !success then
          let msg := "Failed to initialize " ++ engine ++ " engine"
          { ok := false,
            st := { st' with initialization_error := some msg },
            warnLogs := warns, errLogs := [] }
        else
          { ok := true, st := st', warnLogs := warns, errLogs := [] }

/-! ## markio/utils/libreoffice_converter.py -/

/-- The Python exception classes this module raises. -/
inductive PyExc
  | fileNotFoundError (msg : String)
  | valueError (msg : String)
deriving DecidableEq, Repr

/-- The environment of the converter adapter: the outcome of running
`soffice --version` (`none` = the binary is absent, so `subprocess.run`
raises an uncaught `FileNotFoundError`; `some false` = the version command
exits non-zero, the caught `CalledProcessError` case; `some true` = it
succeeds), the `os.path.exists` oracle, and the working directory used by
`os.path.abspath`. -/
structure LOEnv where
  sofficeVersion : Option Bool
  fileExists : String → Bool
  cwd : String

/-- `libreoffice_converter.check_libreoffice_installed`: runs the version
command; only `CalledProcessError` is caught (yielding `false`), a missing
binary propagates as `FileNotFoundError`. -/
def check_libreoffice_installed (env : LOEnv) : Except PyExc Bool :=
  match env.sofficeVersion with
  | none => .error (.fileNotFoundError "No such file or directory: soffice")
  | some true => .ok true
  | some false => .ok false

/-- `os.path.abspath` restricted to the already-normalized paths used here:
an absolute path is returned as is, a relative one is joined to `cwd`. -/
def pyAbsPath (cwd p : String) : String :=
  if pyIsAbs p then p else pyPathJoin cwd p

/-- The observables of one `convert_by_libreoffice` call: its return value
or raised exception, how many converter subprocesses were spawned, whether
the post-hoc rename ran, and whether the original file was removed. -/
structure LOResult where
  ret : Except PyExc String
  spawns : Nat
  renamed : Bool
  removedOriginal : Bool
deriving Repr

/-- `libreoffice_converter.convert_by_libreoffice`: checks the binary, the
input file's existence, the input-format whitelist (`doc`, `docx`, `ppt`,
`pptx`, from the lowercased suffix) and the output-format whitelist (`docx`,
`pptx`), all before building the command; only then spawns the subprocess
(whose exit status is not inspected), computes the expected output name from
the input's stem, renames when it differs from the requested `output_path`,
and optionally removes the original. -/
def convert_by_libreoffice (env : LOEnv) (input_path₀ : String)
    (output_format : String) (output_path? : Option String)
    (rm_original : Bool) : LOResult :=
  match check_libreoffice_installed env with
  | .error e => { ret := .error e, spawns := 0, renamed := false, removedOriginal := false }
  | .ok installed =>
    if !installed then
      { ret := .error (.fileNotFoundError "LibreOffice is not installed."),
        spawns := 0, renamed := false, removedOriginal := false }
    else
      let input_path := pyAbsPath env.cwd input_path₀
      if !env.fileExists input_path then
        { ret := .error (.fileNotFoundError ("Input file not found: " ++ input_path)),
          spawns := 0, renamed := false, removedOriginal := false }
      else
        let input_format := pyLower (pyExtNoDot input_path)
        if input_format ∉ ["doc", "docx", "ppt", "pptx"] then
          { ret := .error (.valueError ("Unsupported input format: " ++ input_format)),
            spawns := 0, renamed := false, removedOriginal := false }
        else if output_format ∉ ["docx", "pptx"] then
          { ret := .error (.valueError ("Unsupported output format: " ++ output_format)),
            spawns := 0, renamed := false, removedOriginal := false }
        else
          let output_path :=
            match output_path? with
            | some p =>
                if p.isEmpty then
                  pyPathJoin (pyDirname input_path)
                    (pyStem input_path ++ "." ++ output_format)
                else p
            | none =>
                pyPathJoin (pyDirname input_path)
                  (pyStem input_path ++ "." ++ output_format)
          let output_dir := pyDirname output_path
          let converted_file :=
            pyPathJoin output_dir (pyStem input_path ++ "." ++ output_format)
          { ret := .ok output_path, spawns := 1,
            renamed := converted_file != output_path,
            removedOriginal := rm_original && input_path != output_path }

/-! ## The semaphore-bounded scheduler of ConcurrentProcessor

`ConcurrentProcessor` guards every task with
`async with self.semaphore: await process_file(...)` where
`self.semaphore = asyncio.Semaphore(max_workers)`.  We model the batch as a
transition system over the per-task phases: a waiting task may start only
when fewer than `W` tasks currently hold a permit (semaphore acquire), and a
running task releases its permit exactly when it finishes, successfully or
not (the `async with` scope).  The event-loop interleaving is arbitrary. -/

/-- The phase of one task in a batch: not yet started, holding the semaphore
permit, or finished (`failed` records whether its outcome was a failure). -/
inductive TaskPhase
  | waiting
  | running
  | done (failed : Bool)
deriving DecidableEq, Repr

/-- Whether a task currently holds a semaphore permit. -/
def holdsPermit : TaskPhase → Bool
  | .running => true
  | _ => false

/-- The number of tasks currently holding a permit. -/
def runningCount (ts : List TaskPhase) : Nat :=
  ts.countP holdsPermit

/-- One event-loop step of the semaphore-gated batch with cap `W`:
`acquire` starts a waiting task, allowed only while fewer than `W` permits
are held; `release` finishes a running task with either outcome, returning
its permit. -/
inductive SchedStep (W : Nat) : List TaskPhase → List TaskPhase → Prop
  | acquire (ts : List TaskPhase) (i : Nat)
      (hget : ts.get? i = some .waiting) (hcap : runningCount ts < W) :
      SchedStep W ts (ts.set i .running)
  | release (ts : List TaskPhase) (i : Nat) (b : Bool)
      (hget : ts.get? i = some .running) :
      SchedStep W ts (ts.set i (.done b))

/-- The states a batch of `n` tasks under cap `W` can reach from its start
(all tasks waiting). -/
def SchedReachable (W n : Nat) (ts : List TaskPhase) : Prop :=
  Relation.ReflTransGen (SchedStep W) (List.replicate n .waiting) ts

/-! ## Derived characterizations and helper lemmas -/

/-- A walked file that the `"json"` merge mode actually reads: not the output
file itself, and named `*.json`. -/
def jsonEligible {J : Type} (out : String) (f : MergeFile J) : Bool :=
  !(f.path = out : Bool) && strEndsWith f.filename ".json"

/-- The records the `"json"` merge mode accumulates: the successful parses of
the eligible files, in walk order. -/
def jsonOkRecords {J : Type} (out : String) (files : List (MergeFile J)) : List J :=
  (files.filter (jsonEligible out)).filterMap (fun f => f.jsonValue.toOption)

/-- The parse-error log lines the `"json"` merge mode emits, in walk order. -/
def jsonParseErrors {J : Type} (out : String) (files : List (MergeFile J)) :
    List String :=
  (files.filter (jsonEligible out)).filterMap (fun f =>
    match f.jsonValue with
    | .ok _ => none
    | .error e => some ("Error parsing " ++ f.path ++ ": " ++ e))

lemma merge_fold_json {J : Type} (out : String) (files : List (MergeFile J))
    (acc : List J × List String) :
    files.foldl (mergeStep out "json") acc =
      (acc.1 ++ jsonOkRecords out files, acc.2 ++ jsonParseErrors out files) := by
  induction files generalizing acc with
  | nil => simp [jsonOkRecords, jsonParseErrors]
  | cons f rest ih =>
      rw [List.foldl_cons, ih]
      by_cases hout : f.path = out
      · simp [mergeStep, hout, jsonOkRecords, jsonParseErrors, jsonEligible]
      · by_cases hj : strEndsWith f.filename ".json"
        · rcases hv : f.jsonValue with e | v
          · simp [mergeStep, hout, hj, hv, jsonOkRecords, jsonParseErrors, jsonEligible,
              List.filterMap_cons, Except.toOption]
          · simp [mergeStep, hout, hj, hv, jsonOkRecords, jsonParseErrors, jsonEligible,
              List.filterMap_cons, Except.toOption]
        · simp [mergeStep, hout, hj, jsonOkRecords, jsonParseErrors, jsonEligible]

lemma pipeline_ok_general (ext : MMExternal) (st : MMState)
    (hpi : st.pipeline_initialized = false) (hp : ext.pipelineLoadOk = true) :
    initialize_pipeline_model ext st =
      (true, { st with pipeline_initialized := true, current_engine := some "pipeline", pipelineHeavyCalls := st.pipelineHeavyCalls + 1 }) := by
  simp [initialize_pipeline_model, hpi, hp]

lemma pipeline_fail_general (ext : MMExternal) (st : MMState)
    (hpi : st.pipeline_initialized = false) (hp : ext.pipelineLoadOk = false) :
    initialize_pipeline_model ext st =
      (false, { st with pipelineHeavyCalls := st.pipelineHeavyCalls + 1 }) := by
  simp [initialize_pipeline_model, hpi, hp]

lemma vlm_ok_general (s : MMSettings) (ext : MMExternal) (engine : String)
    (st : MMState) (hvi : st.vlm_initialized = false)
    (hval : validate_vlm_config s engine = true) (hv : ext.vlmLoadOk = true) :
    initialize_vlm_model s ext engine st =
      (true, { st with vlm_initialized := true, current_engine := some engine, models := st.models ++ [engine], vlmHeavyCalls := st.vlmHeavyCalls + 1 }) := by
  simp [initialize_vlm_model, hvi, hval, hv]

lemma vlm_fallback_general (s : MMSettings) (ext : MMExternal) (engine : String)
    (st : MMState) (hvi : st.vlm_initialized = false)
    (hval : validate_vlm_config s engine = true) (hv : ext.vlmLoadOk = false) :
    initialize_vlm_model s ext engine st =
      initialize_pipeline_model ext { st with vlmHeavyCalls := st.vlmHeavyCalls + 1 } := by
  simp [initialize_vlm_model, hvi, hval, hv]

lemma vlm_invalid_general (s : MMSettings) (ext : MMExternal) (engine : String)
    (st : MMState) (hvi : st.vlm_initialized = false)
    (hval : validate_vlm_config s engine = false) :
    initialize_vlm_model s ext engine st = (false, st) := by
  simp [initialize_vlm_model, hvi, hval]

/-- From a fresh manager, a successful `initialize_models` call always leaves
a current engine set and no recorded error. -/
lemma initialize_models_ok_fresh (s : MMSettings) (ext : MMExternal)
    (h : (initialize_models s ext .fresh).ok = true) :
    (initialize_models s ext .fresh).st.current_engine.isSome = true ∧
    (initialize_models s ext .fresh).st.initialization_error = none := by
  revert h
  set e := pyLower s.pdf_parse_engine with hE
  by_cases h1 : e = "pipeline" ∨ e = "pipeline-engine"
  · cases hp : ext.pipelineLoadOk <;>
      rcases h1 with h1 | h1 <;>
      simp [initialize_models, ← hE, h1, pipeline_ok_general, pipeline_fail_general, hp,
        MMState.fresh]
  · push_neg at h1
    obtain ⟨h1a, h1b⟩ := h1
    by_cases h2 : e = "vlm" ∨ e = "vlm-sglang-engine"
    · have hval1 : validate_vlm_config s "vlm" = true := by simp [validate_vlm_config]
      have hval2 : validate_vlm_config s "vlm-sglang-engine" = true := by
        simp [validate_vlm_config]
      cases hv : ext.vlmLoadOk <;> cases hp : ext.pipelineLoadOk <;>
        rcases h2 with h2 | h2 <;>
        simp [initialize_models, ← hE, h1a, h1b, h2, hval1, hval2,
          vlm_ok_general, vlm_fallback_general, pipeline_ok_general, pipeline_fail_general,
          hp, hv, MMState.fresh]
    · push_neg at h2
      obtain ⟨h2a, h2b⟩ := h2
      by_cases h3 : e = "vlm-sglang-client"
      · by_cases hval : validate_vlm_config s "vlm-sglang-client" = true
        · cases hv : ext.vlmLoadOk <;> cases hp : ext.pipelineLoadOk <;>
            simp [initialize_models, ← hE, h1a, h1b, h2a, h2b, h3, hval,
              vlm_ok_general, vlm_fallback_general, pipeline_ok_general,
              pipeline_fail_general, hp, hv, MMState.fresh]
        · rw [Bool.not_eq_true] at hval
          simp [initialize_models, ← hE, h1a, h1b, h2a, h2b, h3, hval,
            vlm_invalid_general, MMState.fresh]
      · cases hp : ext.pipelineLoadOk <;>
          simp [initialize_models, ← hE, h1a, h1b, h2a, h2b, h3,
            pipeline_ok_general, pipeline_fail_general, hp, MMState.fresh]

lemma countP_set_add (p : TaskPhase → Bool) (l : List TaskPhase) (i : Nat)
    (x y : TaskPhase) (h : l.get? i = some x) :
    (l.set i y).countP p + (if p x then 1 else 0) =
      l.countP p + (if p y then 1 else 0) := by
  induction l generalizing i with
  | nil => simp at h
  | cons a t ih =>
      cases i with
      | zero =>
          simp only [List.get?_cons_zero, Option.some.injEq] at h
          subst h
          simp [List.set, List.countP_cons]
          omega
      | succ j =>
          simp only [List.get?_cons_succ] at h
          have := ih j h
          simp [List.set, List.countP_cons]
          omega

lemma runningCount_replicate (n : Nat) :
    runningCount (List.replicate n .waiting) = 0 := by
  induction n with
  | zero => rfl
  | succ m ih =>
      simp [runningCount, List.replicate_succ, List.countP_cons, holdsPermit, ih]

lemma schedStep_bound {W : Nat} {ts ts' : List TaskPhase}
    (h : SchedStep W ts ts') (hle : runningCount ts ≤ W) :
    runningCount ts' ≤ W := by
  cases h with
  | acquire i hget hcap =>
      have h2 := countP_set_add holdsPermit ts i TaskPhase.waiting TaskPhase.running hget
      norm_num [holdsPermit] at h2
      unfold runningCount at *
      omega
  | release i b hget =>
      have h2 := countP_set_add holdsPermit ts i TaskPhase.running (TaskPhase.done b) hget
      norm_num [holdsPermit] at h2
      unfold runningCount at *
      omega

/-! ## Concrete scenario data -/

/-- A parser oracle for a batch of five PDF tasks in which the second and the
fourth raise during parsing. -/
def c1ParseOf : String → Except String String :=
  fun p => if p = "/in/t2.pdf" || p = "/in/t4.pdf" then .error "parse failed" else .ok "md"

/-- The five input files of the fault-isolation scenario. -/
def c1Files : List String :=
  ["/in/t1.pdf", "/in/t2.pdf", "/in/t3.pdf", "/in/t4.pdf", "/in/t5.pdf"]

/-- A directory with four well-formed JSON files and one malformed one. -/
def c5Files : List (MergeFile Nat) :=
  [{ dirpath := "/out", filename := "a.json", jsonValue := .ok 1 },
   { dirpath := "/out", filename := "b.json", jsonValue := .ok 2 },
   { dirpath := "/out", filename := "bad.json",
     jsonValue := .error "Expecting value: line 1 column 1 (char 0)" },
   { dirpath := "/out", filename := "c.json", jsonValue := .ok 3 },
   { dirpath := "/out", filename := "d.json", jsonValue := .ok 4 }]

/-- The engine identifiers `initialize_models` recognizes. -/
def recognizedEngines : List String :=
  ["pipeline", "pipeline-engine", "vlm", "vlm-sglang-engine", "vlm-sglang-client"]

/-- The error message recorded when the `vlm-sglang-client` engine fails
validation. -/
def c4ErrMsg : String := "Failed to initialize vlm-sglang-client engine"

/-- The manager state after that failed initialization. -/
def c4FailState : MMState := { MMState.fresh with initialization_error := some c4ErrMsg }

/-! ## Claim theorems -/

/-- C1: every exception raised during a task's parameter adaptation or
parsing is caught at the task boundary and logged with the task's name, the
batch yields exactly one outcome per input file with each outcome depending
only on its own task, and in the five-task scenario where tasks 2 and 4
raise during parsing, exactly outcomes 2 and 4 are failures. -/
theorem C1_per_task_fault_isolation :
    (∀ parseOf kw files,
        (process_files_concurrent parseOf kw files).length = files.length) ∧
    (∀ parseOf kw files i,
        (process_files_concurrent parseOf kw files).get? i =
          (files.get? i).map (process_file parseOf kw)) ∧
    (∀ file_ext kw e, file_ext ∈ FUNCTION_MAP_keys →
        parameter_adapter_check file_ext kw = .ok () → kw.parseResult = .error e →
        process_file_with_adapter file_ext kw =
          (.parseError e,
           ["Error processing " ++ kw.file_name ++ "." ++ file_ext ++ ": " ++ e])) ∧
    ((process_files_concurrent c1ParseOf {} c1Files).map (fun r => r.1.isFailure) =
      [false, true, false, true, false]) := by
  refine ⟨?_, ?_, ?_, by rfl⟩
  · intro parseOf kw files
    simp [process_files_concurrent]
  · intro parseOf kw files i
    simp [process_files_concurrent, List.getElem?_map]
  · intro file_ext kw e hmem hpar hres
    unfold process_file_with_adapter
    simp [hmem, hpar, hres]

/-- C1 witness: a concrete PDF task whose parser raises is converted into a
failure outcome logged with the task's name. -/
theorem C1_per_task_fault_isolation_witness :
    process_file_with_adapter "pdf"
        { file_path := "/in/x.pdf", file_name := "x", parseResult := .error "boom" } =
      (.parseError "boom", ["Error processing " ++ "x" ++ "." ++ "pdf" ++ ": " ++ "boom"]) :=
  C1_per_task_fault_isolation.2.2.1 "pdf"
    { file_path := "/in/x.pdf", file_name := "x", parseResult := .error "boom" }
    "boom" (by decide) (by rfl) (by rfl)

/-- C2: in the semaphore-gated batch model, no reachable state has more than
`max_workers` tasks holding an execution permit simultaneously, and a
finished task — successful or failed — holds no permit. -/
theorem C2_semaphore_concurrency_bound :
    (∀ W n ts, SchedReachable W n ts → runningCount ts ≤ W) ∧
    (∀ b, holdsPermit (.done b) = false) ∧
    holdsPermit .waiting = false := by
  refine ⟨?_, fun b => rfl, rfl⟩
  intro W n ts h
  unfold SchedReachable at h
  induction h with
  | refl => rw [runningCount_replicate]; exact Nat.zero_le W
  | tail hsteps hstep ih => exact schedStep_bound hstep ih

/-- C2 witness: with cap 1 and two tasks, the state with the first task
running is reachable and satisfies the bound. -/
theorem C2_semaphore_concurrency_bound_witness :
    SchedReachable 1 2 [.running, .waiting] ∧
    runningCount [TaskPhase.running, TaskPhase.waiting] ≤ 1 := by
  have hstep : SchedStep 1 (List.replicate 2 .waiting) [.running, .waiting] := by
    have hset : ([TaskPhase.waiting, TaskPhase.waiting].set 0 .running) =
        [TaskPhase.running, TaskPhase.waiting] := rfl
    rw [show (List.replicate 2 TaskPhase.waiting) =
        [TaskPhase.waiting, TaskPhase.waiting] from rfl, ← hset]
    exact SchedStep.acquire _ 0 rfl (by decide)
  have hr : SchedReachable 1 2 [.running, .waiting] :=
    Relation.ReflTransGen.single hstep
  exact ⟨hr, C2_semaphore_concurrency_bound.1 1 2 _ hr⟩

/-- C3 counterexample: a negative `batch_size` is not rejected at all — with
three files and `batch_size = -1`, `process_files_batched` returns normally
with an empty outcome list instead of failing with a configuration error. -/
theorem C3_counterexample_negative_batch :
    process_files_batched (fun _ => .ok "md") {}
      ["/in/a.pdf", "/in/b.pdf", "/in/c.pdf"] (-1) = .ok [] := by rfl

/-- C3 (amended): `batch_size = 0` raises the `ValueError` from `range`
before any chunk is formed, and a negative `batch_size` yields an empty index
sequence, so in both cases no task executes — but neither case raises a
`ConfigurationError`; the `chunked_iterable` helper conversely yields no
chunks at size 0 and raises `ValueError` for negative sizes. -/
theorem C3_nonpositive_batch_rejection :
    (∀ parseOf kw files,
        process_files_batched parseOf kw files 0 =
          .error "range() arg 3 must not be zero") ∧
    (∀ parseOf kw files bs, bs < 0 →
        process_files_batched parseOf kw files bs = .ok []) ∧
    (∀ l, chunked_iterable l 0 = .ok []) ∧
    (∀ (l : List String) sz, sz < 0 → ∃ e, chunked_iterable l sz = .error e) := by
  refine ⟨?_, ?_, ?_, ?_⟩
  · intro parseOf kw files
    rfl
  · intro parseOf kw files bs hbs
    rcases bs with n | m
    · exact absurd hbs (not_lt.mpr (Int.ofNat_nonneg n))
    · rfl
  · intro l; rfl
  · intro l sz hsz
    rcases sz with n | m
    · exact absurd hsz (not_lt.mpr (Int.ofNat_nonneg n))
    · exact ⟨_, rfl⟩

/-- C3 witness: concrete nonpositive batch sizes execute no task. -/
theorem C3_nonpositive_batch_rejection_witness :
    process_files_batched (fun _ => .ok "md") {} ["/in/a.pdf"] (-2) = .ok [] ∧
    (∃ e, chunked_iterable ["a"] (-1) = .error e) :=
  ⟨C3_nonpositive_batch_rejection.2.1 (fun _ => .ok "md") {} ["/in/a.pdf"] (-2)
      (by decide),
   C3_nonpositive_batch_rejection.2.2.2 ["a"] (-1) (by decide)⟩

/-- C4: with engine `vlm-sglang-client` and no (or an empty) server URL,
initialization fails with a recorded configuration error, no fallback engine
is selected and no heavy loader runs; with an altogether unrecognized engine
name, initialization succeeds, logs a warning, and substitutes the default
pipeline engine — as does the module-level parser selection in `run_local`. -/
theorem C4_engine_selection_asymmetry :
    (∀ ext, initialize_models ⟨"vlm-sglang-client", none⟩ ext .fresh =
        { ok := false, st := c4FailState, warnLogs := [], errLogs := [] }) ∧
    (∀ ext, initialize_models ⟨"vlm-sglang-client", some ""⟩ ext .fresh =
        { ok := false, st := c4FailState, warnLogs := [], errLogs := [] }) ∧
    (∀ e url ext, pyLower e ∉ recognizedEngines → ext.pipelineLoadOk = true →
        initialize_models ⟨e, url⟩ ext .fresh =
          { ok := true,
            st := { MMState.fresh with pipeline_initialized := true, current_engine := some "pipeline", pipelineHeavyCalls := 1 },
            warnLogs := ["Unknown engine: " ++ pyLower e ++ ", falling back to pipeline"],
            errLogs := [] }) ∧
    pdf_engine_selection "not-a-real-engine" =
      ("pdf_parse_main",
       ["Invalid PDF_PARSE_ENGINE: not-a-real-engine, using pipeline as default"]) := by
  refine ⟨fun ext => rfl, fun ext => rfl, ?_, rfl⟩
  intro e url ext hmem hp
  simp only [recognizedEngines, List.mem_cons, List.not_mem_nil, or_false, not_or] at hmem
  obtain ⟨h1, h2, h3, h4, h5⟩ := hmem
  unfold initialize_models
  simp only [MMState.fresh, Option.isSome_none, Bool.false_eq_true, if_false]
  simp [h1, h2, h3, h4, h5, initialize_pipeline_model, hp]

/-- C4 witness: the unrecognized engine `not-a-real-engine` degrades to the
pipeline engine with a warning. -/
theorem C4_engine_selection_asymmetry_witness :
    initialize_models ⟨"not-a-real-engine", none⟩ ⟨true, true⟩ .fresh =
      { ok := true,
        st := { MMState.fresh with pipeline_initialized := true, current_engine := some "pipeline", pipelineHeavyCalls := 1 },
        warnLogs := ["Unknown engine: " ++ pyLower "not-a-real-engine" ++ ", falling back to pipeline"],
        errLogs := [] } :=
  C4_engine_selection_asymmetry.2.2.1 "not-a-real-engine" none ⟨true, true⟩
    (by decide) (by rfl)

/-- C5 counterexample: merging the directory with four well-formed and one
malformed JSON file does not return 4 — `merge_json_files` is declared
`-> None` and always returns `None`. -/
theorem C5_counterexample_merge_returns_none :
    (merge_json_files c5Files "/out/merged.json" "json" true).retVal ≠ some 4 ∧
    (merge_json_files c5Files "/out/merged.json" "json" true).retVal = none :=
  ⟨by simp [merge_json_files, merge_fold_json], rfl⟩

/-- C5 (amended): a file that fails to parse is logged as an error and
skipped without aborting the walk or the final write; the merged list holds
exactly the successful parses of the eligible files and is written once at
the end; the count is logged, not returned (the function returns `None`).
In the 4-good/1-malformed scenario, 4 records merge and exactly one parse
error is logged. -/
theorem C5_merge_skips_malformed :
    (∀ (J : Type) (files : List (MergeFile J)) out wOk,
        (merge_json_files files out "json" wOk).merged = jsonOkRecords out files ∧
        (merge_json_files files out "json" wOk).errorLogs = jsonParseErrors out files ∧
        (merge_json_files files out "json" wOk).retVal = none ∧
        (wOk = true → (merge_json_files files out "json" wOk).written =
          some (jsonOkRecords out files))) ∧
    ((merge_json_files c5Files "/out/merged.json" "json" true).merged.length = 4 ∧
     (merge_json_files c5Files "/out/merged.json" "json" true).errorLogs.length = 1 ∧
     (merge_json_files c5Files "/out/merged.json" "json" true).infoLogs =
       ["Merged 4 items into /out/merged.json"]) := by
  constructor
  · intro J files out wOk
    unfold merge_json_files
    rw [merge_fold_json]
    cases wOk <;> simp
  · exact ⟨rfl, rfl, rfl⟩

/-- C5 witness: in the concrete scenario the final write receives exactly
the successfully parsed records. -/
theorem C5_merge_skips_malformed_witness :
    (merge_json_files c5Files "/out/merged.json" "json" true).written =
      some (jsonOkRecords "/out/merged.json" c5Files) :=
  (C5_merge_skips_malformed.1 Nat c5Files "/out/merged.json" true).2.2.2 rfl

/-- C6: `initialize_models` is idempotent — with a current engine set and no
recorded error it returns true immediately with the state (including the
heavy-loader call counters) unchanged; after a recorded failure it returns
false immediately with the state unchanged, until `reset` clears the error;
and from a fresh manager a successful call followed by a second call leaves
the state untouched, so heavy initialization runs exactly once. -/
theorem C6_initialize_idempotent :
    (∀ s ext st, st.initialization_error = none → st.current_engine.isSome = true →
        initialize_models s ext st = { ok := true, st := st, warnLogs := [], errLogs := [] }) ∧
    (∀ s ext st, st.initialization_error.isSome = true →
        (initialize_models s ext st).ok = false ∧ (initialize_models s ext st).st = st) ∧
    (∀ st, (MMState.reset st).initialization_error = none ∧
        (MMState.reset st).current_engine = none) ∧
    (∀ s ext, (initialize_models s ext .fresh).ok = true →
        initialize_models s ext (initialize_models s ext .fresh).st =
          { ok := true, st := (initialize_models s ext .fresh).st,
            warnLogs := [], errLogs := [] }) := by
  have part1 : ∀ s ext st, st.initialization_error = none →
      st.current_engine.isSome = true →
      initialize_models s ext st = { ok := true, st := st, warnLogs := [], errLogs := [] } := by
    intro s ext st he hc
    unfold initialize_models
    simp [he, hc]
  refine ⟨part1, ?_, ?_, ?_⟩
  · intro s ext st he
    unfold initialize_models
    simp [he]
  · intro st
    exact ⟨rfl, rfl⟩
  · intro s ext h
    obtain ⟨hc, he⟩ := initialize_models_ok_fresh s ext h
    exact part1 s ext _ he hc

/-- C6 witness: a second call on a concrete already-initialized state is a
no-op returning true, with the heavy-call counters unchanged. -/
theorem C6_initialize_idempotent_witness :
    initialize_models ⟨"pipeline", none⟩ ⟨true, true⟩
        { MMState.fresh with pipeline_initialized := true, current_engine := some "pipeline", pipelineHeavyCalls := 1 } =
      { ok := true,
        st := { MMState.fresh with pipeline_initialized := true, current_engine := some "pipeline", pipelineHeavyCalls := 1 },
        warnLogs := [], errLogs := [] } :=
  C6_initialize_idempotent.1 ⟨"pipeline", none⟩ ⟨true, true⟩
    { MMState.fresh with pipeline_initialized := true, current_engine := some "pipeline", pipelineHeavyCalls := 1 }
    rfl rfl

/-- C7: a URL resolved without an explicit filename is downloaded to the
given output directory (or the process temp directory when none is given)
under the filename derived from the URL's last path segment, falling back to
`downloaded_file` when none is extractable; resolving
`https://example.com/a/b/report.pdf` yields a local file named
`report.pdf`. -/
theorem C7_download_filename_derivation :
    (∀ fetch temp url d, is_valid_url url = true → fetch url = .ok () →
        d.isEmpty = false →
        download_file_from_url fetch temp url (some d) none =
          .ok (pyPathJoin d
            (if (extract_filename_from_url url).isEmpty then "downloaded_file"
             else extract_filename_from_url url))) ∧
    (∀ fetch temp url, is_valid_url url = true → fetch url = .ok () →
        download_file_from_url fetch temp url none none =
          .ok (pyPathJoin temp
            (if (extract_filename_from_url url).isEmpty then "downloaded_file"
             else extract_filename_from_url url))) ∧
    (∀ pe fetch temp, fetch "https://example.com/a/b/report.pdf" = .ok () →
        (process_resource_path pe fetch temp
            "https://example.com/a/b/report.pdf" (some "/out")).1 =
          .ok "/out/report.pdf") ∧
    extract_filename_from_url "https://example.com/a/b/report.pdf" = "report.pdf" ∧
    pyBasename "/out/report.pdf" = "report.pdf" := by
  refine ⟨?_, ?_, ?_, rfl, rfl⟩
  · intro fetch temp url d hv hf hd
    unfold download_file_from_url
    simp [hv, hf, hd]
  · intro fetch temp url hv hf
    unfold download_file_from_url
    simp [hv, hf]
  · intro pe fetch temp hf
    unfold process_resource_path
    have hc : is_url_or_file_path pe "https://example.com/a/b/report.pdf" = "url" := rfl
    rw [hc]
    simp only [if_pos rfl]
    unfold download_file_from_url
    have hv : is_valid_url "https://example.com/a/b/report.pdf" = true := rfl
    simp [hv, hf]
    rfl

/-- C7 witness: the example URL downloads into `/out` as `report.pdf`. -/
theorem C7_download_filename_derivation_witness :
    download_file_from_url (fun _ => .ok ()) "/tmp"
        "https://example.com/a/b/report.pdf" (some "/out") none =
      .ok (pyPathJoin "/out"
        (if (extract_filename_from_url "https://example.com/a/b/report.pdf").isEmpty
         then "downloaded_file"
         else extract_filename_from_url "https://example.com/a/b/report.pdf")) :=
  C7_download_filename_derivation.1 (fun _ => .ok ()) "/tmp"
    "https://example.com/a/b/report.pdf" "/out" rfl rfl rfl

/-- C8 counterexample: `ftp://host/file.pdf` is not a recognized (http/https)
URL scheme, yet resolution does not return it unchanged — it is classified
`url` and a download is attempted (one network access). -/
theorem C8_counterexample_scheme_download :
    is_url_or_file_path (fun _ => false) "ftp://host/file.pdf" = "url" ∧
    process_resource_path (fun _ => false) (fun _ => .ok ()) "/tmp"
        "ftp://host/file.pdf" none = (.ok "/tmp/file.pdf", 1) := ⟨rfl, by rfl⟩

/-- C8 (amended): a reference classified `local` — exactly those whose parsed
scheme is empty or `file` (or that fail to parse) — is returned unchanged
with no download attempt and no existence check; any other non-empty scheme
is treated as a URL and a download is attempted.  `/tmp/already/local.pdf`
is returned unchanged. -/
theorem C8_local_passthrough :
    (∀ pe fetch temp p d, is_url_or_file_path pe p = "local" →
        process_resource_path pe fetch temp p d = (.ok p, 0)) ∧
    (∀ pe p r, pyUrlparse p = .ok r → (r.scheme = "" ∨ r.scheme = "file") →
        is_url_or_file_path pe p = "local") ∧
    (∀ pe fetch temp d,
        process_resource_path pe fetch temp "/tmp/already/local.pdf" d =
          (.ok "/tmp/already/local.pdf", 0)) := by
  refine ⟨?_, ?_, ?_⟩
  · intro pe fetch temp p d h
    unfold process_resource_path
    simp [h]
  · intro pe p r h hs
    have he : ("" : String).isEmpty = true := rfl
    unfold is_url_or_file_path
    rcases hs with hs | hs
    · simp [h, hs, he]
    · simp [h, hs]
  · intro pe fetch temp d; rfl

/-- C8 witness: the concrete local path resolves to itself with zero
download attempts. -/
theorem C8_local_passthrough_witness :
    process_resource_path (fun _ => false) (fun _ => .ok ()) "/tmp"
        "/tmp/already/local.pdf" none = (.ok "/tmp/already/local.pdf", 0) :=
  C8_local_passthrough.1 (fun _ => false) (fun _ => .ok ()) "/tmp"
    "/tmp/already/local.pdf" none (by rfl)

/-- C9: the converter adapter fails with `FileNotFoundError` (the design's
`DependencyMissingError`) and spawns nothing when the binary is absent or
its version command fails; it fails with `ValueError` (the design's
`UnsupportedConversionError`) and spawns nothing when the input format is
outside `doc`/`docx`/`ppt`/`pptx` or the output format outside
`docx`/`pptx`; and a subprocess is spawned only when every precondition
holds. -/
theorem C9_converter_preconditions :
    (∀ fe cwd ip fmt op rm,
        (convert_by_libreoffice ⟨none, fe, cwd⟩ ip fmt op rm).spawns = 0 ∧
        (convert_by_libreoffice ⟨none, fe, cwd⟩ ip fmt op rm).ret =
          .error (.fileNotFoundError "No such file or directory: soffice")) ∧
    (∀ fe cwd ip fmt op rm,
        (convert_by_libreoffice ⟨some false, fe, cwd⟩ ip fmt op rm).spawns = 0 ∧
        (convert_by_libreoffice ⟨some false, fe, cwd⟩ ip fmt op rm).ret =
          .error (.fileNotFoundError "LibreOffice is not installed.")) ∧
    (∀ env ip fmt op rm, env.sofficeVersion = some true →
        env.fileExists (pyAbsPath env.cwd ip) = true →
        pyLower (pyExtNoDot (pyAbsPath env.cwd ip)) ∉ ["doc", "docx", "ppt", "pptx"] →
        (convert_by_libreoffice env ip fmt op rm).spawns = 0 ∧
        (convert_by_libreoffice env ip fmt op rm).ret =
          .error (.valueError ("Unsupported input format: " ++
            pyLower (pyExtNoDot (pyAbsPath env.cwd ip))))) ∧
    (∀ env ip fmt op rm, env.sofficeVersion = some true →
        env.fileExists (pyAbsPath env.cwd ip) = true →
        pyLower (pyExtNoDot (pyAbsPath env.cwd ip)) ∈ ["doc", "docx", "ppt", "pptx"] →
        fmt ∉ ["docx", "pptx"] →
        (convert_by_libreoffice env ip fmt op rm).spawns = 0 ∧
        (convert_by_libreoffice env ip fmt op rm).ret =
          .error (.valueError ("Unsupported output format: " ++ fmt))) ∧
    (∀ env ip fmt op rm, (convert_by_libreoffice env ip fmt op rm).spawns = 1 →
        env.sofficeVersion = some true ∧
        env.fileExists (pyAbsPath env.cwd ip) = true ∧
        pyLower (pyExtNoDot (pyAbsPath env.cwd ip)) ∈ ["doc", "docx", "ppt", "pptx"] ∧
        fmt ∈ ["docx", "pptx"]) := by
  refine ⟨?_, ?_, ?_, ?_, ?_⟩
  · intro fe cwd ip fmt op rm
    exact ⟨rfl, rfl⟩
  · intro fe cwd ip fmt op rm
    exact ⟨rfl, rfl⟩
  · intro env ip fmt op rm hs hf hin
    rcases env with ⟨sv, fe, cwd⟩
    subst hs
    simp only [convert_by_libreoffice, check_libreoffice_installed] at *
    simp [hf, hin]
  · intro env ip fmt op rm hs hf hin hout
    rcases env with ⟨sv, fe, cwd⟩
    subst hs
    simp only [convert_by_libreoffice, check_libreoffice_installed] at *
    simp [hf, hin, hout]
  · intro env ip fmt op rm hsp
    rcases env with ⟨sv, fe, cwd⟩
    rcases sv with _ | b
    · simp [convert_by_libreoffice, check_libreoffice_installed] at hsp
    · cases b
      · simp [convert_by_libreoffice, check_libreoffice_installed] at hsp
      · simp only [convert_by_libreoffice, check_libreoffice_installed] at hsp ⊢
        by_cases hf : fe (pyAbsPath cwd ip) = true
        · simp only [hf] at hsp ⊢
          by_cases hin : pyLower (pyExtNoDot (pyAbsPath cwd ip)) ∈ ["doc", "docx", "ppt", "pptx"]
          · by_cases hout : fmt ∈ ["docx", "pptx"]
            · exact ⟨trivial, trivial, hin, hout⟩
            · simp [hin, hout] at hsp
          · simp [hin] at hsp
        · rw [Bool.not_eq_true] at hf
          simp [hf] at hsp

/-- C9 witness: converting a `.xls` file is refused before any subprocess
spawn. -/
theorem C9_converter_preconditions_witness :
    (convert_by_libreoffice ⟨some true, fun _ => true, "/w"⟩ "/docs/a.xls"
        "docx" none false).spawns = 0 ∧
    (convert_by_libreoffice ⟨some true, fun _ => true, "/w"⟩ "/docs/a.xls"
        "docx" none false).ret =
      .error (.valueError ("Unsupported input format: " ++
        pyLower (pyExtNoDot (pyAbsPath "/w" "/docs/a.xls")))) :=
  C9_converter_preconditions.2.2.1 ⟨some true, fun _ => true, "/w"⟩ "/docs/a.xls"
    "docx" none false rfl rfl (by decide)

/-- C10: resource classification is total — every string, including the
empty string, is classified `local` or `url` and the classifier never
raises; the empty string is `local`, so resolving it returns it unchanged
with no download attempt. -/
theorem C10_classification_total :
    (∀ pe s, is_url_or_file_path pe s = "local" ∨ is_url_or_file_path pe s = "url") ∧
    (∀ pe, is_url_or_file_path pe "" = "local") ∧
    (∀ pe fetch temp d, process_resource_path pe fetch temp "" d = (.ok "", 0)) := by
  refine ⟨?_, ?_, ?_⟩
  · intro pe s
    unfold is_url_or_file_path
    split
    · left; rfl
    · rcases h : pyUrlparse s with e | parsed
      · simp only [h]
        split <;> simp
      · simp only [h]
        split_ifs <;> simp
  · intro pe; rfl
  · intro pe fetch temp d; rfl

end Markio
